import Mathlib

set_option maxRecDepth 8000

namespace BotOrch

/-! # Data model

JSON-like values, the data over which the path resolver of the orchestrator
(`src/app/utils/utilities.py`) operates: Python `None`, `bool`, numbers
(modelled as `Int`), `str`, `list`, and `dict` (association list in
insertion order; actual Python dicts have unique keys). -/

inductive Json where
  | null : Json
  | bool : Bool → Json
  | num : Int → Json
  | str : String → Json
  | arr : List Json → Json
  | obj : List (String × Json) → Json

/-- A Python `dict` parameter (e.g. the `data: Dict[str, Any]` argument of
`extract_json_path_value`): an association list in insertion order. -/
abbrev JObj := List (String × Json)

/-- Python `dict.get(key)`: first binding of the key, if any. -/
def jGet (kvs : JObj) (k : String) : Option Json :=
  match kvs with
  | [] => none
  | (k', v) :: rest => if k' == k then some v else jGet rest k

mutual
/-- Python `==` on JSON-like values: structural value equality. -/
def jsonEq : Json → Json → Bool
  | .null, .null => true
  | .bool a, .bool b => a == b
  | .num a, .num b => a == b
  | .str a, .str b => a == b
  | .arr xs, .arr ys => jsonEqL xs ys
  | .obj xs, .obj ys => jsonEqO xs ys
  | _, _ => false
def jsonEqL : List Json → List Json → Bool
  | [], [] => true
  | x :: xs, y :: ys => jsonEq x y && jsonEqL xs ys
  | _, _ => false
def jsonEqO : List (String × Json) → List (String × Json) → Bool
  | [], [] => true
  | (k, v) :: xs, (k', v') :: ys => k == k' && jsonEq v v' && jsonEqO xs ys
  | _, _ => false
end

/-! # String primitives

Character-list implementations of the Python string operations the source
uses (`strip`, `replace`, `startswith`, substring containment, splitting),
written with structural recursion so that concrete evaluations reduce in
the kernel. -/

/-- The Python whitespace set for `str.strip()` and the regex class `\s`:
space, tab, newline, carriage return, vertical tab, form feed. -/
def isSpaceChar (c : Char) : Bool :=
  c == ' ' || c == '\t' || c == '\n' || c == '\r' ||
  c == Char.ofNat 11 || c == Char.ofNat 12

/-- Test `leadsWith pat s`: the character list `s` begins with `pat`. -/
def leadsWith : List Char → List Char → Bool
  | [], _ => true
  | _ :: _, [] => false
  | p :: ps, c :: cs => p == c && leadsWith ps cs

/-- Test `containsSub pat s`: `pat` occurs as a contiguous run inside `s`
(Python `pat in s`). -/
def containsSub (pat : List Char) : List Char → Bool
  | [] => leadsWith pat []
  | c :: cs => leadsWith pat (c :: cs) || containsSub pat cs

/-- Python `pat in s` on strings. -/
def strContains (s pat : String) : Bool := containsSub pat.data s.data

/-- Python `s.startswith(pat)`. -/
def strStarts (s pat : String) : Bool := leadsWith pat.data s.data

/-- Python `s.strip()`. -/
def pyStrip (s : String) : String :=
  ⟨((s.data.dropWhile isSpaceChar).reverse.dropWhile isSpaceChar).reverse⟩

/-- Fuel-indexed worker for `pyReplace`; the fuel starts at the string
length, which bounds the number of steps since each step consumes at
least one character. -/
def replaceAllAux (pat rep : List Char) : Nat → List Char → List Char
  | _, [] => []
  | 0, s => s
  | Nat.succ fuel, c :: cs =>
    if leadsWith pat (c :: cs) then
      rep ++ replaceAllAux pat rep fuel (List.drop pat.length (c :: cs))
    else
      c :: replaceAllAux pat rep fuel cs

/-- Python `s.replace(pat, rep)` for a non-empty pattern: replaces every
non-overlapping occurrence left to right (the source only ever replaces
the non-empty literal `"Bearer "`). -/
def pyReplace (s pat rep : String) : String :=
  if pat.data.isEmpty then s
  else ⟨replaceAllAux pat.data rep.data s.data.length s.data⟩

/-- Split a character list on a separator character (used to model the
parsing, by the JSONPath library, of dotted field chains). -/
def splitOnChar (sep : Char) : List Char → List (List Char)
  | [] => [[]]
  | c :: cs =>
    match splitOnChar sep cs with
    | [] => if c == sep then [[], []] else [[c]]
    | r :: rs => if c == sep then [] :: r :: rs else (c :: r) :: rs

/-! # PathResolver: `src/app/utils/utilities.py` -/

mutual
/-- Embedding of `find_field_recursive` (utilities.py:53-63): exhaustive depth-first
search for every occurrence of key `f`; on a dict the direct binding is
collected first, then every value is searched (including the collected
one), in insertion order; lists are searched element by element. -/
def find_field_recursive (j : Json) (f : String) : List Json :=
  match j with
  | .obj kvs =>
    (match jGet kvs f with | some v => [v] | none => []) ++ findFieldInKVs kvs f
  | .arr xs => findFieldInArr xs f
  | _ => []
def findFieldInKVs : List (String × Json) → String → List Json
  | [], _ => []
  | (_, v) :: rest, f => find_field_recursive v f ++ findFieldInKVs rest f
def findFieldInArr : List Json → String → List Json
  | [], _ => []
  | x :: rest, f => find_field_recursive x f ++ findFieldInArr rest f
end

/-- Embedding of `Utilities._resolve_recursive_reference` (utilities.py:43-74): resolves
a reference path of shape `$..field` (first recursive match in traversal
order) or `$.field` (direct child); any other shape is unsupported and
yields `None`.  Note the source checks the `$..` shape first. -/
def _resolve_recursive_reference (data : JObj) (refPath : String) : Option Json :=
  if strStarts refPath "$.." then
    (find_field_recursive (.obj data) ⟨refPath.data.drop 3⟩).head?
  else if strStarts refPath "$." then
    jGet data ⟨refPath.data.drop 2⟩
  else
    none

/-- The anchored regex of `_handle_complex_filter` (utilities.py:85):
`\$\.([^[]+)\[\?\(@\.([^=\s]+)\s*==\s*(\$\.\.?[^\]]+)\)\]\.(.+)`,
returning the four groups (array field, filter field, reference path,
target field).  Notes on fidelity: the pattern is anchored at the start
(`re.match`) and requires the literal `$.` first; group 1 cannot contain
`[`, so it is the run up to the first `[`; group 2 is the maximal run of
non-`=` non-whitespace characters; group 3 spans `$.`, an optional `.`,
and non-`]` characters up to the `)` that must immediately precede the
first `]`; `.` in group 4 does not match a newline. -/
def matchFilterPattern (path : String) : Option (String × String × String × String) :=
  match path.data with
  | '$' :: '.' :: rest1 =>
    let g1 := rest1.takeWhile (fun c => !(c == '['))
    if g1.isEmpty then none else
    match rest1.dropWhile (fun c => !(c == '[')) with
    | '[' :: '?' :: '(' :: '@' :: '.' :: rest4 =>
      let g2 := rest4.takeWhile (fun c => !(c == '=') && !(isSpaceChar c))
      if g2.isEmpty then none else
      match (rest4.dropWhile (fun c => !(c == '=') && !(isSpaceChar c))).dropWhile isSpaceChar with
      | '=' :: '=' :: rest7 =>
        match rest7.dropWhile isSpaceChar with
        | '$' :: '.' :: rest9 =>
          let upTo := rest9.takeWhile (fun c => !(c == ']'))
          match rest9.dropWhile (fun c => !(c == ']')) with
          | ']' :: rest10 =>
            match upTo.getLast? with
            | some ')' =>
              if upTo.dropLast.isEmpty then none else
              match rest10 with
              | '.' :: rest11 =>
                let g4 := rest11.takeWhile (fun c => !(c == '\n'))
                if g4.isEmpty then none
                else some (⟨g1⟩, ⟨g2⟩, ⟨'$' :: '.' :: upTo.dropLast⟩, ⟨g4⟩)
              | _ => none
            | _ => none
          | _ => none
        | _ => none
      | _ => none
    | _ => none
  | _ => none

/-- Embedding of `Utilities._handle_complex_filter` (utilities.py:77-124): manual
evaluation of `$.array[?(@.cond==$ref)].target`.  Returns `[]` when the
pattern does not match, when the array field holds a non-list, when the
reference resolves to `None` (absent or a null first match), and
otherwise collects, in array order, the non-null `target` field of every
dict element whose `cond` field equals the resolved reference by value. -/
def _handle_complex_filter (data : JObj) (path : String) : List Json :=
  match matchFilterPattern path with
  | none => []
  | some (arrayField, filterField, referencePath, targetField) =>
    match (match jGet data arrayField with
           | some (.arr xs) => some xs
           | some _ => none
           | none => some []) with
    | none => []
    | some items =>
      match _resolve_recursive_reference data referencePath with
      | none => []
      | some refVal =>
        if jsonEq refVal .null then []
        else
          items.filterMap (fun item =>
            match item with
            | .obj kvs =>
              match jGet kvs filterField with
              | some fv =>
                if jsonEq fv refVal then
                  match jGet kvs targetField with
                  | some tv => if jsonEq tv .null then none else some tv
                  | none => none
                else none
              | none => none
            | _ => none)

/-- A plain field name as the JSONPath library accepts it in a dotted
chain: non-empty, with none of the structural metacharacters. -/
def plainFieldName (f : String) : Bool :=
  !f.data.isEmpty &&
  f.data.all (fun c =>
    !(c == '[') && !(c == ']') && !(c == '?') && !(c == '*') &&
    !(c == '=') && !(c == '.') && !(c == '$') && !(isSpaceChar c))

/-- Direct-descent walk for a dotted field chain: each step looks the
field up in a dict; a missing field or a non-dict value yields zero
matches (not an error). -/
def walkFields : Json → List String → List Json
  | v, [] => [v]
  | .obj kvs, f :: fs =>
    (match jGet kvs f with | some v => walkFields v fs | none => [])
  | _, _ :: _ => []

/-- Modelled from the spec: the external JSONPath library call
(`jsonpath_ng.parse(json_path).find(data)`, utilities.py:158-182 — the
library is a third-party dependency, not among the sources of this
repository).  Spec section 4.1 defines the expression kinds it serves: root
`$` (the whole data map), direct descent `$.a.b…` (zero matches when a
field is missing), and recursive descent `$..field` (exhaustive
depth-first search returning every occurrence).  Any other expression is
modelled as a library failure (`none`), i.e. the exception path of
utilities.py:179-182 caught at utilities.py:203-205. -/
def libraryFind (data : JObj) (path : String) : Option (List Json) :=
  if path == "$" then some [Json.obj data]
  else if strStarts path "$.." then
    let f : String := ⟨path.data.drop 3⟩
    if plainFieldName f then some (find_field_recursive (.obj data) f) else none
  else if strStarts path "$." then
    let fs := (splitOnChar '.' (path.data.drop 2)).map (fun l => (⟨l⟩ : String))
    if fs.all plainFieldName then some (walkFields (.obj data) fs) else none
  else none

/-- The result channel of `extract_json_path_value`: Python returns `None`
(absent), the single matched value, or the ordered list of matched
values.  (the Python return channel collapses a single `None` match with
absence; `extractToOption` reproduces that collapse at the caller.) -/
inductive ExtractResult where
  | absent : ExtractResult
  | single : Json → ExtractResult
  | multiple : List Json → ExtractResult

/-- The guard at utilities.py:146 choosing manual complex-filter handling:
the path contains `[?(@.`, `$.`, and `==`. -/
def isComplexFilterShape (path : String) : Bool :=
  strContains path "[?(@." && strContains path "$." && strContains path "=="

/-- Embedding of `Utilities.extract_json_path_value` (utilities.py:126-205): empty path
yields `None`; a path of complex-filter shape is evaluated manually and
its match list wrapped by cardinality; otherwise the JSONPath library is
consulted and its match list wrapped the same way (a library exception is
caught and yields `None`; the `jsonpath2` fallback at utilities.py:184-201
is unreachable because the preceding handler re-raises). -/
def extract_json_path_value (data : JObj) (path : String) : ExtractResult :=
  if path == "" then .absent
  else if isComplexFilterShape path then
    match _handle_complex_filter data path with
    | [] => .absent
    | [v] => .single v
    | v :: v' :: vs => .multiple (v :: v' :: vs)
  else
    match libraryFind data path with
    | none => .absent
    | some [] => .absent
    | some [v] => .single v
    | some (v :: v' :: vs) => .multiple (v :: v' :: vs)

/-- The cardinality rule of the spec, stated in its own words (spec section
4.1): zero matches → absent; exactly one match → unwrap to the scalar;
more than one → the ordered list. -/
def cardinalityRule : List Json → ExtractResult
  | [] => .absent
  | [v] => .single v
  | v :: v' :: vs => .multiple (v :: v' :: vs)

/-- The match list `extract_json_path_value` computes before applying the
cardinality wrap: empty for an empty path, the manual complex-filter
matches for a complex-filter-shaped path, otherwise the matches of the library
(empty when the library fails). -/
def extractionMatches (data : JObj) (path : String) : List Json :=
  if path == "" then []
  else if isComplexFilterShape path then _handle_complex_filter data path
  else
    match libraryFind data path with
    | none => []
    | some ms => ms

/-- The view that the `is not None` test of `resolve_value` takes of the
Python return value of `extract_json_path_value` (utilities.py:243): absence and a
single `None` match both read as `None`; a multiple result is the list. -/
def extractToOption (data : JObj) (path : String) : Option Json :=
  match extract_json_path_value data path with
  | .absent => none
  | .single v => if jsonEq v .null then none else some v
  | .multiple vs => some (.arr vs)

/-- Embedding of `is_jsonpath_expression` (utilities.py:215-235): a value is treated as
a path expression iff it is a string of one of the listed textual shapes. -/
def is_jsonpath_expression (v : Json) : Bool :=
  match v with
  | .str s =>
    strStarts s "$." || strStarts s "$[" || s == "$" || strStarts s "$.." ||
    strContains s "[?" || (strContains s "==" && strContains s "$") ||
    (strContains s "!=" && strContains s "$") ||
    (strContains s "<" && strContains s "$") ||
    (strContains s ">" && strContains s "$") ||
    strContains s "[*]" || (strContains s ".." && strContains s "$")
  | _ => false

/-- Embedding of `resolve_value` (utilities.py:237-251): strings of path-expression
shape are resolved against the workflow data; a `None`/absent resolution
or a caught exception keeps the original literal; everything else passes
through unchanged. -/
def resolve_value (v : Json) (data : JObj) : Json :=
  match v with
  | .str s =>
    if is_jsonpath_expression (.str s) then
      match extractToOption data s with
      | some r => r
      | none => .str s
    else .str s
  | other => other

mutual
/-- Embedding of `Utilities.resolve_jsonpath_in_params` (utilities.py:207-282): the
structural walk — dicts and lists are rebuilt with nested dicts/lists
recursed into and every other entry passed to `resolve_value`; a bare
string goes to `resolve_value`; any other scalar is returned as-is. -/
def resolve_jsonpath_in_params (toolInput : Json) (workflowData : JObj) : Json :=
  match toolInput with
  | .obj kvs => .obj (resolveObjEntries kvs workflowData)
  | .arr xs => .arr (resolveListItems xs workflowData)
  | .str s => resolve_value (.str s) workflowData
  | other => other
def resolveObjEntries : List (String × Json) → JObj → List (String × Json)
  | [], _ => []
  | (k, .obj kvs) :: rest, wd =>
    (k, resolve_jsonpath_in_params (.obj kvs) wd) :: resolveObjEntries rest wd
  | (k, .arr xs) :: rest, wd =>
    (k, resolve_jsonpath_in_params (.arr xs) wd) :: resolveObjEntries rest wd
  | (k, v) :: rest, wd => (k, resolve_value v wd) :: resolveObjEntries rest wd
def resolveListItems : List Json → JObj → List Json
  | [], _ => []
  | .obj kvs :: rest, wd =>
    resolve_jsonpath_in_params (.obj kvs) wd :: resolveListItems rest wd
  | .arr xs :: rest, wd =>
    resolve_jsonpath_in_params (.arr xs) wd :: resolveListItems rest wd
  | v :: rest, wd => resolve_value v wd :: resolveListItems rest wd
end

/-! # TaskStatusCoordinator: `src/app/a2a/server.py` -/

instance : Inhabited Json := ⟨Json.null⟩

/-- Wire value of the a2a `TaskState.input_required` state. -/
def taskStateInputRequired : String := "input-required"

/-- A status update as enqueued on the event queue: the task state, the
final flag, and the status string carried in the message payload of a
streaming update (final/synchronous updates carry the full agent output
instead, modelled as `""`). -/
structure StatusUpdate where
  state : String
  final : Bool
  statusPayload : String
deriving DecidableEq

/-- Embedding of `_run_workflow_without_streaming` (server.py:176-199):
after the run, ONE `TaskStatusUpdateEvent` is enqueued directly
(server.py:186-197) and a SECOND status update with the same state,
message and final flag is emitted through `TaskUpdater.update_status`
(server.py:198-199).  The final flag starts `False` and is set `True`
unless the resulting task state is `input_required`. -/
def _run_workflow_without_streaming (taskState : String) : List StatusUpdate :=
  let final := if taskState == taskStateInputRequired then false else true
  [{ state := taskState, final := final, statusPayload := "" },
   { state := taskState, final := final, statusPayload := "" }]

/-- Status update computed by the synchronous rule for a given resulting
task state (the state itself, final unless `input_required`). -/
def syncStatusUpdate (taskState : String) : StatusUpdate :=
  { state := taskState,
    final := if taskState == taskStateInputRequired then false else true,
    statusPayload := "" }

/-- Modelled from the spec: `main` (`app/agent/run.py`, not under src/)
invokes the caller-supplied callback once after each system-action step
completes, in step order, passing it the intermediate state carrying the
latest status.  Each invocation runs the source `stream_callback`
(server.py:206-216), which emits one non-final `working` status update
through `TaskUpdater.update_status` carrying the latest intermediate status
string. -/
def streamingStepUpdates (stepStatuses : List String) : List StatusUpdate :=
  stepStatuses.map (fun s => { state := "working", final := false, statusPayload := s })

/-- Embedding of `_run_workflow_with_streaming` (server.py:205-230): the
per-step callback updates (see `streamingStepUpdates`), followed by the
single final update of server.py:230, which passes `TaskState.completed`
and `final=True` literally, regardless of the resulting task state
(`taskState` is deliberately unused here: the source ignores it). -/
def _run_workflow_with_streaming (stepStatuses : List String) (_taskState : String) :
    List StatusUpdate :=
  streamingStepUpdates stepStatuses ++
    [{ state := "completed", final := true, statusPayload := "" }]

/-! # SkillRouter: `_classify_skill` (server.py:243-268) -/

/-- Structured response of the completion service as read by
`_classify_skill`: the optional `skill` and `workflow_id` fields. -/
structure ClassifierResponse where
  skill : Option String
  workflow_id : Option String

/-- Embedding of the response handling of `_classify_skill`
(server.py:262-268); the prompt construction and the completion call
itself are the external collaborator.  The skill field defaults to `""`,
is stripped, and must be one of `capability`, `workflow`, `other`;
anything else raises (`ClassificationError`). -/
def _classify_skill (r : ClassifierResponse) : Except String (String × Option String) :=
  let skill := pyStrip (r.skill.getD "")
  if skill == "capability" || skill == "workflow" || skill == "other" then
    .ok (skill, r.workflow_id)
  else
    .error ("Unrecognized skill: " ++ skill)

/-- Embedding of the roles guard of `WorkflowService.get_all_workflows`
(workflow_service.py:135-136): `_classify_skill` lists the workflow
catalog first (server.py:245-246, passing `tuple(user_roles)`), and an
empty roles tuple raises `ValueError("user_roles must be a non-empty
tuple")` there — before the workflow repository is queried and before
the completion call at server.py:262.  (The `isinstance(.., tuple)`
conjunct always holds for the tuple the caller builds.) -/
def get_all_workflows_roles_guard (user_roles : List String) : Except String Unit :=
  if user_roles.isEmpty then .error "user_roles must be a non-empty tuple"
  else .ok ()

/-! # SessionManager pieces: `AgentState` and `_cast_to_agent_state` -/

/-- The dataclass fields of `AgentState` (`src/app/agent/state.py:13-60`),
i.e. the instance attributes holding state.  (A Python `hasattr` check is
also true for the class methods `mark_end`, `to_dict`,
`get_initial_state`; the model covers the data-attribute surface, which
is what a workflow result map addresses.) -/
def agentStateAttrs : List String :=
  ["input", "output", "token", "event_log", "context_id", "input_data",
   "is_new_conversation", "messages", "sub_agent_events", "available_agents",
   "selected_agent", "available_tools", "agent_tools", "selected_tool",
   "results", "step", "seen_decisions", "status", "filter", "agent_name",
   "task_id", "task", "task_state", "event_queue", "start_time", "end_time",
   "call_back_function", "conversation", "current_state", "selected_skill",
   "agent_description", "agent_skills", "workflow_id", "user_roles", "user_id"]

/-- Embedding of `_cast_to_agent_state` (server.py:142-146): iterate the
result map in order and `setattr` each key that is an existing attribute
of `AgentState`, skipping the rest.  The state is modelled as a valuation
of attribute names. -/
def _cast_to_agent_state (result : List (String × Json)) (base : String → Json) :
    String → Json :=
  match result with
  | [] => base
  | (k, v) :: rest =>
    if k ∈ agentStateAttrs then
      _cast_to_agent_state rest (fun a => if a = k then v else base a)
    else
      _cast_to_agent_state rest base

/-! # Session persistence: `AgentTrace.load_agent_session`
(`src/app/utils/agent_trace.py:53-70`) -/

/-- Embedding of `AgentTrace.load_agent_session`: when no `chat_session`
row exists, the in-memory state is returned unchanged; when a row exists,
the in-memory conversation and current_state are ASSIGNED the stored
columns (`row[4] if row[4] else []`, `row[5] if row[5] else {}`) — a
replacement, not a merge.  The row is modelled as its two nullable
columns. -/
def load_agent_session (storedRow : Option (Option (List Json) × Option JObj))
    (conversation : List Json) (currentState : JObj) : List Json × JObj :=
  match storedRow with
  | none => (conversation, currentState)
  | some (c, cs) => (c.getD [], cs.getD [])

/-! # The `execute` pipeline (server.py:62-140) -/

/-- Response of the identity-resolver MCP tool `get_user_info`: the
optional `userId` and the `roles` list parsed from its payload
(server.py:280-281). -/
structure ResolverResponse where
  userId : Option String
  roles : List String

/-- Embedding of the guard of `get_user_info` (server.py:282-284),
transcribed literally: `not user_id or (user_roles and len(user_roles)
== 0)`.  A missing or empty user id raises; note the second disjunct
(`roles` non-empty AND of length zero) is unsatisfiable, so an empty
roles list alone never raises. -/
def get_user_info (r : ResolverResponse) : Except String (String × List String) :=
  let userId := r.userId.getD ""
  if userId == "" || (!r.roles.isEmpty && r.roles.length == 0) then
    .error "User ID or User Roles could not be retrieved. Unauthorized access."
  else
    .ok (userId, r.roles)

/-- External collaborators (and the workflow run) touched during
`execute`, in invocation order. -/
inductive Collab where
  | identityResolver : Collab
  | storeLoad : Collab
  | completionService : Collab
  | storeSave : Collab
  | workflowRun : Collab
deriving DecidableEq

/-- One incoming turn as `execute` sees it: protocol method, raw
authorization header, user input text, optional DataPart payload, whether
a current task exists (its absence marks a new conversation,
server.py:133-135), what the identity resolver returns for this token,
the stored `chat_session` row if any, and what the completion service
would answer if consulted. -/
structure TurnInput where
  method : String
  authorization : String
  userInput : String
  inputData : JObj
  hasCurrentTask : Bool
  resolver : ResolverResponse
  storedRow : Option (Option (List Json) × Option JObj)
  classifierResponse : ClassifierResponse

/-- Observable outcome of one successful `execute` turn: the route used,
the workflow id, the new-conversation flag, the `current_state` map saved
at the end of the run, and the final conversation log. -/
structure TurnOutcome where
  selectedSkill : String
  workflowId : Option String
  isNew : Bool
  savedCurrentState : JObj
  conversation : List Json

instance : Inhabited TurnOutcome :=
  ⟨{ selectedSkill := "", workflowId := none, isNew := true,
     savedCurrentState := [], conversation := [] }⟩

/-- The effective input text of a turn (server.py:110-118): the stripped
user input, overridden by the raw `input` entry of the DataPart payload
when present (modelled for string payload values, the case the source
stores into the string-typed field). -/
def effectiveInput (inp : TurnInput) : String :=
  match jGet inp.inputData "input" with
  | some (.str s) => s
  | _ => pyStrip inp.userInput

/-- The conversation entry appended for the user turn (server.py:76). -/
def userTurnEntry (input : String) : Json :=
  .obj [("role", .str "user"), ("content", .str input)]

/-- Modelled from the spec: the agent turn appended after the run
(server.py:201/225) carries `agent_state.output`, which is produced by
`main` (`app/agent/run.py`, not under src/); the content is modelled as
an unspecified constant since no claim depends on it. -/
def agentTurnEntry : Json :=
  .obj [("role", .str "agent"), ("content", .null)]

/-- The `messages` value a continuing turn computes (server.py:79-80):
when the stored `current_state` has a `messages` list, the user entry is
appended to it (the source mutates the stored list in place); when the
key is absent, the append lands on a discarded fresh default and line 80
re-reads the key, yielding an empty list. -/
def continuedMessages (cs : JObj) (input : String) : Json :=
  match jGet cs "messages" with
  | some (.arr xs) => .arr (xs ++ [userTurnEntry input])
  | some v => v
  | none => .arr []

/-- Embedding of the `execute` pipeline (server.py:62-95) with
`_create_agent_state` (97-140) and `_validate_state` (235-241) inlined,
returning the ordered collaborator trace together with the outcome or
the raised error.  Faithful ordering: the identity resolver is called at
server.py:109, BEFORE `_validate_state` runs at server.py:130; the role
guard of server.py:69 is transcribed literally; the session row is
loaded (server.py:73) before the user turn is appended (server.py:76);
a continuing turn reuses `current_state["selected_skill"]`
(default `""`) while a new turn classifies — and the classification step
embeds `_classify_skill` whole: the workflow-catalog listing runs first,
so `get_all_workflows_roles_guard` raises on an empty roles list
(workflow_service.py:135-136) BEFORE the completion service is reached,
while a response-parsing failure happens after the completion call (the
error variants carry the collaborator trace up to their raise point; the
catalog lookup of a successful classification is subsumed under the
`completionService` entry); the session is saved before the run and
again after it; the streaming save (server.py:226) stores
`{"messages": ...}` only, while the non-streaming save (server.py:202)
stores `{"messages": ..., "selected_skill": ...}`.  The `messages` value
a new turn saves comes from the result of `main` (not under src/) and is
modelled as an empty list; no claim depends on it. -/
def executeModel (inp : TurnInput) : List Collab × Except String TurnOutcome :=
  let token := pyStrip (pyReplace inp.authorization "Bearer " "")
  match get_user_info inp.resolver with
  | .error e => ([.identityResolver], .error e)
  | .ok (userId, roles) =>
    let input := effectiveInput inp
    if input == "" && inp.inputData.isEmpty then
      ([.identityResolver], .error "Input payload is missing or empty.")
    else if pyStrip (pyReplace token "Bearer " "") == "" then
      ([.identityResolver], .error "Authorization token is missing or empty.")
    else
      let isNew := !inp.hasCurrentTask
      if userId == "" || (!roles.isEmpty && roles.length == 0) then
        ([.identityResolver], .error "User ID or User Roles could not be retrieved. Unauthorized access.")
      else
        let loaded := load_agent_session inp.storedRow [] []
        let conv1 := loaded.1 ++ [userTurnEntry input]
        match (if isNew then
                 (match get_all_workflows_roles_guard roles with
                  | .error e =>
                    Except.error (e, [Collab.identityResolver, Collab.storeLoad])
                  | .ok _ =>
                    match _classify_skill inp.classifierResponse with
                    | .ok sw => Except.ok (sw.1, sw.2, [Collab.completionService])
                    | .error e =>
                      Except.error (e, [Collab.identityResolver, Collab.storeLoad,
                                        Collab.completionService]))
               else
                 Except.ok (match jGet loaded.2 "selected_skill" with
                            | some (.str s) => s
                            | some _ => ""
                            | none => "", none, ([] : List Collab)) :
               Except (String × List Collab) (String × Option String × List Collab)) with
        | .error et => (et.2, .error et.1)
        | .ok (skill, wid, classifierCalls) =>
          let msgs := if isNew then Json.arr [] else continuedMessages loaded.2 input
          let savedCS : JObj :=
            if pyStrip inp.method == "message/stream" then [("messages", msgs)]
            else [("messages", msgs), ("selected_skill", .str skill)]
          ([Collab.identityResolver, .storeLoad] ++ classifierCalls ++
             [.storeSave, .workflowRun, .storeSave],
           .ok { selectedSkill := skill, workflowId := wid, isNew := isNew,
                 savedCurrentState := savedCS,
                 conversation := conv1 ++ [agentTurnEntry] })

/-! # Derived contracts and concrete scenario inputs -/

/-- Python `value in list` over JSON values (membership by value
equality). -/
def jsonListContains (l : List Json) (v : Json) : Bool :=
  l.any (fun x => jsonEq x v)

/-- The conversation log a successful turn must end with: the rehydrated
stored log followed by the user entry of this turn and the agent entry
appended after the run. -/
def conversationAfterTurn (inp : TurnInput) : List Json :=
  (load_agent_session inp.storedRow [] []).1 ++
    [userTurnEntry (effectiveInput inp), agentTurnEntry]

/-- Contract: whenever `execute` completes a turn, its final conversation
log equals `conversationAfterTurn` — every rehydrated entry is kept and
the two entries of the current turn are appended after rehydration. -/
def turnConversationContract (inp : TurnInput) : Prop :=
  match (executeModel inp).2 with
  | .ok o => o.conversation = conversationAfterTurn inp
  | .error _ => True

/-- Scenario (C1): a syntactically valid NEW turn whose identity
resolution yields a user with an EMPTY roles list. -/
def c1ZeroRolesTurn : TurnInput :=
  { method := "message/send", authorization := "Bearer tok", userInput := "hello",
    inputData := [], hasCurrentTask := false,
    resolver := { userId := some "user-1", roles := [] },
    storedRow := none,
    classifierResponse := { skill := some "workflow", workflow_id := some "wf-1" } }

/-- Scenario (C1): a CONTINUING turn of a zero-roles session, rehydrated
from a stored row whose `current_state` carries the `workflow` route —
no classification happens on this path, so the zero-roles session is
served end to end. -/
def c1ZeroRolesContinuingTurn : TurnInput :=
  { method := "message/send", authorization := "Bearer tok", userInput := "yes",
    inputData := [], hasCurrentTask := true,
    resolver := { userId := some "user-1", roles := [] },
    storedRow := some (some [userTurnEntry "hello", agentTurnEntry],
                       some [("messages", .arr []),
                             ("selected_skill", .str "workflow")]),
    classifierResponse := { skill := some "other", workflow_id := none } }

/-- Scenario (C1): a turn with an EMPTY authorization token (the identity
resolver response is immaterial; a passing one is supplied so the flow
reaches the token check). -/
def c1EmptyTokenTurn : TurnInput :=
  { method := "message/send", authorization := "", userInput := "hello",
    inputData := [], hasCurrentTask := false,
    resolver := { userId := some "user-1", roles := ["CUBE_E2E_ADMIN"] },
    storedRow := none,
    classifierResponse := { skill := some "other", workflow_id := none } }

/-- Scenario (C8): a first (new-conversation) turn served over
`message/stream` that classifies to the `workflow` route. -/
def c8FirstTurn : TurnInput :=
  { method := "message/stream", authorization := "Bearer tok",
    userInput := "track order 123", inputData := [], hasCurrentTask := false,
    resolver := { userId := some "user-1", roles := ["CUBE_E2E_ADMIN"] },
    storedRow := none,
    classifierResponse := { skill := some "workflow", workflow_id := some "wf-9" } }

/-- Outcome of the first C8 turn. -/
def c8FirstOutcome : TurnOutcome :=
  ((executeModel c8FirstTurn).2.toOption).getD default

/-- Scenario (C8): the continuing turn of the same session, rehydrated
from exactly what the first (streamed) turn persisted. -/
def c8SecondTurn : TurnInput :=
  { method := "message/send", authorization := "Bearer tok", userInput := "yes",
    inputData := [], hasCurrentTask := true,
    resolver := { userId := some "user-1", roles := ["CUBE_E2E_ADMIN"] },
    storedRow := some (some c8FirstOutcome.conversation,
                       some c8FirstOutcome.savedCurrentState),
    classifierResponse := { skill := some "other", workflow_id := none } }

/-- Scenario (C5): the spec example vehicle list with one matching
element. -/
def c5Vehicle1 : Json := .obj [("soldOrderNumber", .str "X"), ("vin", .str "V1")]

/-- Scenario (C5): the non-matching vehicle. -/
def c5Vehicle2 : Json := .obj [("soldOrderNumber", .str "Y"), ("vin", .str "V2")]

/-- Scenario (C5): a second matching vehicle. -/
def c5Vehicle3 : Json := .obj [("soldOrderNumber", .str "X"), ("vin", .str "V3")]

/-- Scenario (C5): data with the reference resolving to `"X"` and one
matching vehicle. -/
def c5DataOne : JObj :=
  [("selected_order", .str "X"), ("vehicles", .arr [c5Vehicle1, c5Vehicle2])]

/-- Scenario (C5): data with two matching vehicles. -/
def c5DataTwo : JObj :=
  [("selected_order", .str "X"),
   ("vehicles", .arr [c5Vehicle1, c5Vehicle2, c5Vehicle3])]

/-- Scenario (C5): data with NO `selected_order` anywhere — the filter
reference is absent. -/
def c5DataNoRef : JObj := [("vehicles", .arr [c5Vehicle1, c5Vehicle2])]

/-- Scenario (C5): data with two occurrences of `selected_order`; the
first one in traversal order (`"X"`, at the root) must win over the
nested later one (`"Y"`). -/
def c5DataShadow : JObj :=
  [("selected_order", .str "X"),
   ("context", .obj [("selected_order", .str "Y")]),
   ("vehicles", .arr [c5Vehicle1, c5Vehicle2])]

/-- The filter expression exactly as the spec example writes it —
unanchored (no leading `$.`). -/
def c5ExprUnanchored : String :=
  "vehicles[?(@.soldOrderNumber==$..selected_order)].vin"

/-- The same filter expression anchored at the root with `$.`, the shape
the source regex requires. -/
def c5ExprAnchored : String :=
  "$.vehicles[?(@.soldOrderNumber==$..selected_order)].vin"

/-- Scenario (C10): a result map with one known and one unknown key. -/
def c10Result : List (String × Json) :=
  [("status", .str "done"), ("bogus_key", .num 1)]

/-- Scenario (C10): a base state valuation. -/
def c10Base : String → Json := fun _ => .str "prior"

/-! # Claim theorems -/

/-- C1: evaluation of the execute pipeline at the failing inputs.  The
intended roles rejection never fires — the guard `user_roles and
len(user_roles) == 0` of server.py:69/282 is unsatisfiable.  (1) A
CONTINUING zero-roles turn is served end to end: it completes with the
stored route reused and the workflow run executed, with no rejection of
any kind, contradicting the invariant that a zero-roles session is
rejected before any routing occurs.  (2) A NEW zero-roles turn does
fail, but only inside classification, when the workflow-catalog listing
raises `user_roles must be a non-empty tuple`
(workflow_service.py:135-136) — AFTER the identity resolver and the
session-store load were invoked (trace
`[identityResolver, storeLoad]`), not with the pre-collaborator
ValidationError the claim states (and with a different error than the
roles guard's own message).  (3) For a turn with an empty authorization
token the identity resolver IS invoked before the token validation
failure is raised (server.py:109 runs before server.py:130). -/
theorem zero_roles_session_not_validation_rejected :
    executeModel c1ZeroRolesContinuingTurn =
      ([.identityResolver, .storeLoad, .storeSave, .workflowRun, .storeSave],
       .ok { selectedSkill := "workflow", workflowId := none, isNew := false,
             savedCurrentState := [("messages", .arr [userTurnEntry "yes"]),
                                   ("selected_skill", .str "workflow")],
             conversation := [userTurnEntry "hello", agentTurnEntry,
                              userTurnEntry "yes", agentTurnEntry] }) ∧
    executeModel c1ZeroRolesTurn =
      ([.identityResolver, .storeLoad],
       .error "user_roles must be a non-empty tuple") ∧
    executeModel c1EmptyTokenTurn =
      ([.identityResolver], .error "Authorization token is missing or empty.") :=
  ⟨rfl, rfl, rfl⟩

/-- C2 counterexample: the claim fails at a run whose resulting task
state is `input_required` with one system-action step — the streaming
final update is the literal `completed`/`final=true` of server.py:230,
NOT the update the synchronous rule computes (`input-required`,
non-final); and the non-streaming path emits two updates, not one. -/
theorem streaming_final_update_not_sync_computed :
    (_run_workflow_with_streaming ["executing get_order"]
        taskStateInputRequired).getLast? ≠
      some (syncStatusUpdate taskStateInputRequired) ∧
    (_run_workflow_without_streaming "completed").length ≠ 1 := by
  constructor
  · decide
  · decide

/-- C2 (amended): for a workflow with the given system-action step
statuses, streaming mode emits exactly one non-final `working` update per
step, in step order, followed by exactly one final update that is always
`completed` with `final=true` (regardless of the resulting task state,
unlike the synchronous computation); non-streaming mode emits exactly two
identical updates. -/
theorem streaming_update_sequence (stepStatuses : List String) (taskState : String) :
    (_run_workflow_with_streaming stepStatuses taskState).length =
      stepStatuses.length + 1 ∧
    (_run_workflow_with_streaming stepStatuses taskState).take stepStatuses.length =
      stepStatuses.map
        (fun s => { state := "working", final := false, statusPayload := s }) ∧
    ((_run_workflow_with_streaming stepStatuses taskState).take
        stepStatuses.length).all (fun u => !u.final && (u.state == "working")) = true ∧
    (_run_workflow_with_streaming stepStatuses taskState).getLast? =
      some { state := "completed", final := true, statusPayload := "" } ∧
    (_run_workflow_without_streaming taskState).length = 2 := by
  have htake : (_run_workflow_with_streaming stepStatuses taskState).take
      stepStatuses.length =
      stepStatuses.map
        (fun s => { state := "working", final := false, statusPayload := s }) := by
    unfold _run_workflow_with_streaming streamingStepUpdates
    have h := List.take_left
      (stepStatuses.map
        (fun s => ({ state := "working", final := false, statusPayload := s } : StatusUpdate)))
      [({ state := "completed", final := true, statusPayload := "" } : StatusUpdate)]
    rwa [List.length_map] at h
  refine ⟨?_, htake, ?_, ?_, ?_⟩
  · unfold _run_workflow_with_streaming streamingStepUpdates
    simp
  · rw [htake]
    simp [List.all_eq_true]
  · unfold _run_workflow_with_streaming
    exact List.getLast?_concat _
  · unfold _run_workflow_without_streaming
    simp

/-- C3 counterexample: the claim that exactly one status update is
emitted in synchronous delivery fails — the source enqueues a
`TaskStatusUpdateEvent` directly (server.py:186-197) AND emits the same
update again through `TaskUpdater.update_status` (server.py:198-199), so
a completed run produces two updates. -/
theorem sync_path_emits_two_updates :
    (_run_workflow_without_streaming "completed").length ≠ 1 := by
  decide

/-- C3 (amended): synchronous delivery emits exactly two status updates
with identical state, message and final flag (one direct event enqueue
and one through the task updater), and their final flag is true iff the
resulting task status is not `input_required`. -/
theorem sync_updates_shape_and_final_flag (taskState : String) :
    _run_workflow_without_streaming taskState =
      [syncStatusUpdate taskState, syncStatusUpdate taskState] ∧
    ((syncStatusUpdate taskState).final = true ↔ taskState ≠ taskStateInputRequired) := by
  refine ⟨rfl, ?_⟩
  unfold syncStatusUpdate
  by_cases h : taskState = taskStateInputRequired
  · simp [h]
  · simp [h]

/-- C5 counterexample: the claim evaluates the spec example expression
`vehicles[?(@.soldOrderNumber==$..selected_order)].vin` to `"V1"`, but
the source regex (utilities.py:85) requires the expression to start with
`$.`; the unanchored expression enters the complex-filter branch (it
contains `[?(@.`, `$.` and `==`), fails the pattern match, and resolves
to absent, not to `"V1"`. -/
theorem unanchored_filter_expression_yields_absent :
    extract_json_path_value c5DataOne c5ExprUnanchored = .absent ∧
    extract_json_path_value c5DataOne c5ExprUnanchored ≠
      .single (.str "V1") := by
  refine ⟨rfl, ?_⟩
  intro h
  rw [show extract_json_path_value c5DataOne c5ExprUnanchored = .absent from rfl] at h
  exact ExtractResult.noConfusion h

/-- C5 (amended): with the expression anchored at the root
(`$.vehicles[?(@.soldOrderNumber==$..selected_order)].vin`, the shape
the source pattern requires), the filter first resolves the reference
(first match in traversal order; an absent reference aborts to absent)
and then collects `vin` from the elements whose `soldOrderNumber` equals
it: one match unwraps to the scalar `"V1"`, two matches return the
ordered list of both vins, and a shadowed second `selected_order`
occurrence is ignored in favour of the first. -/
theorem anchored_filter_expression_behaviour :
    extract_json_path_value c5DataOne c5ExprAnchored = .single (.str "V1") ∧
    extract_json_path_value c5DataTwo c5ExprAnchored =
      .multiple [.str "V1", .str "V3"] ∧
    extract_json_path_value c5DataNoRef c5ExprAnchored = .absent ∧
    extract_json_path_value c5DataShadow c5ExprAnchored = .single (.str "V1") :=
  ⟨rfl, rfl, rfl, rfl⟩

/-- C7 counterexample: a completion-service response whose skill field is
`" workflow"` (leading space) lies outside `{capability, workflow,
other}` yet classification succeeds (the source strips the field before
the membership test, server.py:263), contradicting the claim that every
response with a skill outside the set fails. -/
theorem padded_skill_accepted :
    (" workflow" = "capability" ∨ " workflow" = "workflow" ∨
      " workflow" = "other" → False) ∧
    _classify_skill { skill := some " workflow", workflow_id := none } =
      .ok ("workflow", none) := by
  refine ⟨?_, rfl⟩
  intro h
  rcases h with h | h | h <;> simp at h

/-- C7 (amended): classification trims the skill field first; a response
whose TRIMMED skill field is outside `{capability, workflow, other}`
fails with a ClassificationError, and one whose trimmed skill field is in
the set returns that (trimmed) skill together with the optional workflow
identifier. -/
theorem trimmed_skill_classification (r : ClassifierResponse) :
    (pyStrip (r.skill.getD "") = "capability" ∨
     pyStrip (r.skill.getD "") = "workflow" ∨
     pyStrip (r.skill.getD "") = "other" →
       _classify_skill r = .ok (pyStrip (r.skill.getD ""), r.workflow_id)) ∧
    (¬(pyStrip (r.skill.getD "") = "capability" ∨
       pyStrip (r.skill.getD "") = "workflow" ∨
       pyStrip (r.skill.getD "") = "other") →
       _classify_skill r =
         .error ("Unrecognized skill: " ++ pyStrip (r.skill.getD ""))) := by
  unfold _classify_skill
  constructor
  · intro h
    have hb : (pyStrip (r.skill.getD "") == "capability" ||
        pyStrip (r.skill.getD "") == "workflow" ||
        pyStrip (r.skill.getD "") == "other") = true := by
      rcases h with h | h | h <;> simp [h]
    simp [hb]
  · intro h
    have hb : (pyStrip (r.skill.getD "") == "capability" ||
        pyStrip (r.skill.getD "") == "workflow" ||
        pyStrip (r.skill.getD "") == "other") = false := by
      push_neg at h
      obtain ⟨h1, h2, h3⟩ := h
      simp [h1, h2, h3]
    simp [hb]

/-- C7 amended witness: the theorem applied at the concrete in-set
response `{skill: "workflow", workflow_id: "wf-2"}`. -/
theorem trimmed_skill_classification_witness :
    (pyStrip "workflow" = "capability" ∨ pyStrip "workflow" = "workflow" ∨
      pyStrip "workflow" = "other") ∧
    _classify_skill { skill := some "workflow", workflow_id := some "wf-2" } =
      .ok ("workflow", some "wf-2") :=
  ⟨Or.inr (Or.inl rfl),
   (trimmed_skill_classification
      { skill := some "workflow", workflow_id := some "wf-2" }).1
     (Or.inr (Or.inl rfl))⟩

/-- C8: evaluation at the failing two-turn scenario.  The first
(streamed) turn classifies to `workflow`, but the streaming save
(server.py:226) persists `current_state` WITHOUT the `selected_skill`
key; the continuing turn therefore reads back the route `""` instead of
the stored route, contradicting the claim that the previously stored
route is reused — while the classifier is indeed only invoked on the
first turn (absent from the continuing trace). -/
theorem streaming_turn_drops_stored_route :
    c8FirstOutcome.selectedSkill = "workflow" ∧
    jGet c8FirstOutcome.savedCurrentState "selected_skill" = none ∧
    ((executeModel c8SecondTurn).2.toOption.getD default).selectedSkill = "" ∧
    (executeModel c8SecondTurn).1.contains Collab.completionService = false ∧
    (executeModel c8FirstTurn).1.contains Collab.completionService = true :=
  ⟨rfl, rfl, rfl, rfl, rfl⟩

/-- C9 counterexample: `load_agent_session` REPLACES the in-memory
conversation with the stored snapshot instead of merging — with an entry
already in memory and a stored row present, the result is exactly the
stored log and the in-memory entry is gone. -/
theorem rehydrate_replaces_in_memory_log :
    (load_agent_session (some (some [Json.str "stored-entry"], none))
        [Json.str "in-memory-entry"] []).1 = [Json.str "stored-entry"] ∧
    jsonListContains
      (load_agent_session (some (some [Json.str "stored-entry"], none))
        [Json.str "in-memory-entry"] []).1 (Json.str "in-memory-entry") = false :=
  ⟨rfl, rfl⟩

/-- C4: the resolver applies the cardinality rule uniformly — for every
data map and path, `extract_json_path_value` equals the spec rule
(zero matches → absent, one → scalar, many → ordered list) applied to the
match list the chosen branch computes (manual complex filter, library
matches, empty for an empty path or a library failure). -/
theorem extract_follows_cardinality_rule (data : JObj) (path : String) :
    extract_json_path_value data path = cardinalityRule (extractionMatches data path) := by
  unfold extract_json_path_value extractionMatches
  by_cases h0 : (path == "") = true
  · simp [h0, cardinalityRule]
  · simp only [h0, Bool.false_eq_true, if_false]
    by_cases h1 : isComplexFilterShape path = true
    · simp only [h1, if_true]
      cases hm : _handle_complex_filter data path with
      | nil => simp [cardinalityRule]
      | cons v tl => cases tl <;> simp [cardinalityRule]
    · simp only [h1, Bool.false_eq_true, if_false]
      cases hl : libraryFind data path with
      | none => simp [cardinalityRule]
      | some ms =>
        cases ms with
        | nil => simp [cardinalityRule]
        | cons v tl => cases tl <;> simp [cardinalityRule]

/-- Helper: the dict walk of the bulk resolver maps every entry value
through the full resolver (nested containers recurse; other values go
through `resolve_value`, which coincides with the resolver on
non-containers). -/
theorem resolveObjEntries_eq_map (wd : JObj) (kvs : List (String × Json)) :
    resolveObjEntries kvs wd =
      kvs.map (fun kv => (kv.1, resolve_jsonpath_in_params kv.2 wd)) := by
  induction kvs with
  | nil => rfl
  | cons kv rest ih =>
    obtain ⟨k, v⟩ := kv
    cases v <;>
      simp [resolveObjEntries, ih, resolve_jsonpath_in_params, resolve_value]

/-- Helper: the list walk of the bulk resolver maps every item through
the full resolver. -/
theorem resolveListItems_eq_map (wd : JObj) (xs : List Json) :
    resolveListItems xs wd = xs.map (fun x => resolve_jsonpath_in_params x wd) := by
  induction xs with
  | nil => rfl
  | cons x rest ih =>
    cases x <;>
      simp [resolveListItems, ih, resolve_jsonpath_in_params, resolve_value]

/-- C6: the bulk resolver is total (no exception reaches the caller: the
resolver itself catches and maps failures to absence), preserves the
original literal whenever resolution fails or yields no match, recurses
structurally into nested maps and lists, and passes non-string scalars
through unchanged. -/
theorem resolver_structural_walk (wd : JObj) :
    resolve_jsonpath_in_params .null wd = .null ∧
    (∀ b, resolve_jsonpath_in_params (.bool b) wd = .bool b) ∧
    (∀ n : Int, resolve_jsonpath_in_params (.num n) wd = .num n) ∧
    (∀ s, extractToOption wd s = none →
        resolve_jsonpath_in_params (.str s) wd = .str s) ∧
    (∀ kvs, resolve_jsonpath_in_params (.obj kvs) wd =
        .obj (kvs.map (fun kv => (kv.1, resolve_jsonpath_in_params kv.2 wd)))) ∧
    (∀ xs, resolve_jsonpath_in_params (.arr xs) wd =
        .arr (xs.map (fun x => resolve_jsonpath_in_params x wd))) := by
  refine ⟨rfl, fun b => rfl, fun n => rfl, ?_, ?_, ?_⟩
  · intro s h
    show resolve_value (.str s) wd = .str s
    unfold resolve_value
    by_cases hj : is_jsonpath_expression (.str s) = true
    · simp [hj, h]
    · simp [hj]
  · intro kvs
    show Json.obj (resolveObjEntries kvs wd) = _
    rw [resolveObjEntries_eq_map]
  · intro xs
    show Json.arr (resolveListItems xs wd) = _
    rw [resolveListItems_eq_map]

/-- C6 witness: a path-shaped string with no match in an empty data map
is preserved unchanged. -/
theorem resolver_structural_walk_witness :
    extractToOption [] "$.missing" = none ∧
    resolve_jsonpath_in_params (.str "$.missing") [] = .str "$.missing" :=
  ⟨rfl, (resolver_structural_walk []).2.2.2.1 "$.missing" rfl⟩

/-- Helper: lemma on `executeModel` — whenever a turn completes, its
final conversation log is the rehydrated stored log followed by the two
entries appended during the turn. -/
theorem executeModel_ok_conversation (inp : TurnInput) (tr : List Collab)
    (o : TurnOutcome) (h : executeModel inp = (tr, .ok o)) :
    o.conversation = conversationAfterTurn inp := by
  simp only [executeModel] at h
  split at h
  · simp at h
  · split at h
    · simp at h
    · split at h
      · simp at h
      · split at h
        · simp at h
        · split at h
          · simp at h
          · have h2 := congrArg Prod.snd h
            simp only at h2
            injection h2 with h3
            rw [← h3]
            simp [conversationAfterTurn, List.append_assoc]

/-- C9 (amended): `load_agent_session` REPLACES the in-memory
conversation and current_state with the stored snapshot whenever a row
exists (independently of the in-memory values — no merge); in the actual
turn flow rehydration happens before the first append of the turn, so
every completed turn ends with the stored log plus the user and agent
entries appended after rehydration, and no entry appended in the current
turn is dropped. -/
theorem rehydrate_replacement_and_turn_appends :
    (∀ (c : Option (List Json)) (cs : Option JObj) (conv : List Json) (cur : JObj),
        load_agent_session (some (c, cs)) conv cur = (c.getD [], cs.getD [])) ∧
    (∀ inp : TurnInput, turnConversationContract inp) := by
  constructor
  · intro c cs conv cur
    rfl
  · intro inp
    unfold turnConversationContract
    cases hE : (executeModel inp).2 with
    | error e => trivial
    | ok o =>
      exact executeModel_ok_conversation inp (executeModel inp).1 o (by rw [← hE])

/-- Helper: first-match lookup distributes over append. -/
theorem jGet_append (l1 l2 : JObj) (a : String) :
    jGet (l1 ++ l2) a =
      match jGet l1 a with
      | some v => some v
      | none => jGet l2 a := by
  induction l1 with
  | nil => rfl
  | cons kv rest ih =>
    obtain ⟨k, v⟩ := kv
    by_cases hk : (k == a) = true
    · simp [jGet, hk]
    · simp only [List.cons_append, jGet, hk, Bool.false_eq_true, if_false]
      exact ih

/-- Helper: pointwise characterization of the state cast — an attribute
reads the LAST value assigned to it in the result map when the key is a
known attribute, and keeps its prior value otherwise. -/
theorem cast_characterization (result : List (String × Json)) (base : String → Json)
    (a : String) :
    _cast_to_agent_state result base a =
      if a ∈ agentStateAttrs then
        (match jGet result.reverse a with
         | some v => v
         | none => base a)
      else base a := by
  induction result generalizing base with
  | nil =>
    by_cases h : a ∈ agentStateAttrs <;> simp [_cast_to_agent_state, jGet, h]
  | cons kv rest ih =>
    obtain ⟨k, v⟩ := kv
    rw [show ((k, v) :: rest).reverse = rest.reverse ++ [(k, v)] by simp, jGet_append]
    by_cases hk : k ∈ agentStateAttrs
    · rw [show _cast_to_agent_state ((k, v) :: rest) base =
            _cast_to_agent_state rest (fun x => if x = k then v else base x) by
          simp [_cast_to_agent_state, hk]]
      rw [ih]
      by_cases ha : a ∈ agentStateAttrs
      · rw [if_pos ha, if_pos ha]
        cases hr : jGet rest.reverse a with
        | some w => simp
        | none =>
          by_cases hak : a = k
          · subst hak
            simp [jGet]
          · have h2 : (k == a) = false :=
              beq_eq_false_iff_ne.mpr (Ne.symm hak)
            simp [jGet, h2, hak]
      · have hak : ¬(a = k) := fun hh => ha (hh ▸ hk)
        simp [ha, hak]
    · rw [show _cast_to_agent_state ((k, v) :: rest) base =
            _cast_to_agent_state rest base by simp [_cast_to_agent_state, hk]]
      rw [ih]
      by_cases ha : a ∈ agentStateAttrs
      · rw [if_pos ha, if_pos ha]
        cases hr : jGet rest.reverse a with
        | some w => simp
        | none =>
          have hka : (k == a) = false :=
            beq_eq_false_iff_ne.mpr (fun hh => hk (hh ▸ ha))
          simp [jGet, hka]
      · simp [ha]

/-- Helper: first-match lookup ignores a key-based filter that keeps the
looked-up key. -/
theorem jGet_filter_key (p : String → Bool) (l : JObj) (a : String)
    (hpa : p a = true) :
    jGet (l.filter (fun kv => p kv.1)) a = jGet l a := by
  induction l with
  | nil => rfl
  | cons kv rest ih =>
    obtain ⟨k, v⟩ := kv
    by_cases hk : (k == a) = true
    · have hkeq : k = a := beq_iff_eq.mp hk
      subst hkeq
      simp [List.filter, hpa, jGet, hk]
    · cases hpk : p k <;> simp [List.filter, hpk, jGet, hk, ih]

/-- C10: the state-reconciliation cast sets only result keys that are
existing `AgentState` attributes (filtering out the unknown keys changes
nothing), every attribute not named in the result map keeps its prior
value, unknown keys are silently ignored, and a named known attribute
receives its assigned value. -/
theorem cast_sets_only_known_attrs (result : List (String × Json))
    (base : String → Json) :
    (∀ a, a ∉ agentStateAttrs → _cast_to_agent_state result base a = base a) ∧
    (∀ a, jGet result.reverse a = none → _cast_to_agent_state result base a = base a) ∧
    (∀ a v, a ∈ agentStateAttrs → jGet result.reverse a = some v →
        _cast_to_agent_state result base a = v) ∧
    _cast_to_agent_state result base =
      _cast_to_agent_state
        (result.filter (fun kv => decide (kv.1 ∈ agentStateAttrs))) base := by
  refine ⟨?_, ?_, ?_, ?_⟩
  · intro a ha
    rw [cast_characterization]
    simp [ha]
  · intro a h
    rw [cast_characterization]
    by_cases ha : a ∈ agentStateAttrs <;> simp [ha, h]
  · intro a v ha h
    rw [cast_characterization]
    simp [ha, h]
  · funext a
    rw [cast_characterization, cast_characterization]
    by_cases ha : a ∈ agentStateAttrs
    · rw [if_pos ha, if_pos ha,
        show (result.filter (fun kv => decide (kv.1 ∈ agentStateAttrs))).reverse =
            result.reverse.filter (fun kv => decide (kv.1 ∈ agentStateAttrs)) from
          (List.filter_reverse _ _).symm,
        jGet_filter_key (fun x => decide (x ∈ agentStateAttrs)) result.reverse a
          (by simpa using ha)]
    · simp [ha]

/-- C10 witness: on a concrete result map with one known key (`status`)
and one unknown key (`bogus_key`), the unknown key is ignored, the
unnamed known attribute `token` keeps its prior value, and the named
known attribute `status` receives its value. -/
theorem cast_sets_only_known_attrs_witness :
    ("bogus_key" ∉ agentStateAttrs) ∧
    _cast_to_agent_state c10Result c10Base "bogus_key" = c10Base "bogus_key" ∧
    jGet c10Result.reverse "token" = none ∧
    _cast_to_agent_state c10Result c10Base "token" = c10Base "token" ∧
    ("status" ∈ agentStateAttrs) ∧
    jGet c10Result.reverse "status" = some (.str "done") ∧
    _cast_to_agent_state c10Result c10Base "status" = .str "done" :=
  ⟨by decide,
   (cast_sets_only_known_attrs c10Result c10Base).1 "bogus_key" (by decide),
   rfl,
   (cast_sets_only_known_attrs c10Result c10Base).2.1 "token" rfl,
   by decide,
   rfl,
   (cast_sets_only_known_attrs c10Result c10Base).2.2.1 "status" (.str "done")
     (by decide) rfl⟩

end BotOrch
